import Mathlib

/-!
Shallow embedding of the token-lifecycle and pagination logic of the two
source files `ServiceNowApiModule.py` (namespace `ServiceNow`) and
`CiscoWebexEventCollector.py` (namespace `Webex`).

Conventions used throughout:
* HTTP transports are modelled as explicit scripts: a `List` of responses
  consumed in call order.  An exhausted script yields `none` / a `noResponse`
  error, standing in for an environment that never answers (this is the fuel
  of otherwise possibly non-terminating Python loops).
* Timestamps are naturals: milliseconds since epoch for ServiceNow
  (`date_to_timestamp` returns milliseconds) and microseconds since epoch for
  Webex (`datetime.utcnow()` has microsecond resolution; ISO strings with
  `timespec="milliseconds"` truncate to milliseconds).
* Python `dict` records become structures; a key that may be absent becomes
  an `Option` field.  For the ServiceNow `refresh_token` key the code
  distinguishes key-absent from key-present-with-`None`, so that field is an
  `Option (Option String)`: outer layer = key presence, inner = non-`None`.
* `return_error` / raised exceptions become `Except`-style error values.
-/

namespace ServiceNow

/-- Error outcomes of `ServiceNowClient` operations.  The Python code raises
exceptions or calls `return_error`; the distinct raise sites are mapped to
distinct constructors. -/
inductive SNErr where
  /-- `get_access_token` line 174: no `refresh_token` key stored, user must
  run the login command first. -/
  | notLoggedIn
  /-- `get_access_token` line 187: token-endpoint response contains an
  `error` field. -/
  | exchangeFailed
  /-- a response body failed to parse as json (`ValueError` branches). -/
  | parseFailed
  /-- the underlying `_http_request` raised (status outside `ok_codes`). -/
  | transportFailed
  /-- the response script is exhausted: the environment never answered. -/
  | noResponse
  /-- `http_request` line 88: 401 while the stored token is unexpired. -/
  | unauthorized
  /-- `http_request` line 90: 401 in basic-auth mode. -/
  | basicAuthFailed
  /-- `'Bearer ' + None`: `get_access_token` fell through and returned
  `None` (response had neither `error` nor `access_token`). -/
  | typeFailed
deriving DecidableEq

/-- The parsed json body of a token-endpoint (`/oauth_token.do`) response.
`error_present` models the `'error' in res` key-membership test; the
`access_token` key is modelled by the outer `Option`; `refresh_token`
models `res.get('refresh_token')` (`none` = key absent or `None`);
`expires_in` models `res.get('expires_in', 0)`. -/
structure SNTokenJson where
  error_present : Bool := false
  access_token : Option String := none
  refresh_token : Option String := none
  expires_in : Nat := 0
deriving DecidableEq

/-- One response of the token endpoint: an HTTP status and a body that
parsed to json (`some`) or failed to parse (`none`). -/
structure SNTokenResp where
  status : Nat := 200
  body : Option SNTokenJson := none
deriving DecidableEq

/-- The persisted integration context of the ServiceNow client:
`{access_token, refresh_token, expiry_time}`.  `expiry_time := 0` is the
`.get('expiry_time', 0)` default used when the key is absent.
`refresh_token` is two-level: `none` = key absent (never logged in),
`some none` = key present with value `None` (a refresh response omitted it),
`some (some s)` = a real stored refresh token. -/
structure SNContext where
  access_token : Option String := none
  refresh_token : Option (Option String) := none
  expiry_time : Int := 0
deriving DecidableEq

/-- The expiry timestamp computed by `get_access_token` lines 194-195:
`date_to_timestamp(datetime.now(), '%Y-%m-%dT%H:%M:%S')` truncates the
current time to whole seconds (still expressed in ms), then the code adds
`expires_in * 1000 - 10`. -/
def snExpiry (nowMs : Nat) (expires_in : Nat) : Int :=
  ((nowMs / 1000 * 1000 + expires_in * 1000 : Nat) : Int) - 10

/-- Result of one `get_access_token` call: the returned value (or error),
the integration context after the call, and the unconsumed remainder of the
token-endpoint response script. -/
structure SNAuthOut where
  result : Except SNErr (Option String)
  ctx : SNContext
  tokenResps : List SNTokenResp

/-- `ServiceNowClient.get_access_token` (lines 143-206) for a client with no
third-party IdP configured (`authentication_url is None`, the configuration
the claims concern).  Behaviour, in source order:
1. cached token returned when the `access_token` key exists and
   `expiry_time > now` (no endpoint call, context untouched);
2. no `refresh_token` key stored: raise "run the login command first";
3. otherwise one POST to `/oauth_token.do` with `ok_codes = (200,201,401)`:
   a status outside those raises; an unparseable body raises; a body with an
   `error` field calls `return_error` (nothing persisted); a body with an
   `access_token` persists the whole record
   `{access_token, refresh_token: res.get('refresh_token'), expiry_time}`
   (overwriting the previous record) and returns the new access token; a body
   with neither field falls off the end and returns `None`. -/
def get_access_token (ctx : SNContext) (nowMs : Nat) (tokenResps : List SNTokenResp) :
    SNAuthOut :=
  if ctx.access_token.isSome ∧ (nowMs : Int) < ctx.expiry_time then
    ⟨.ok ctx.access_token, ctx, tokenResps⟩
  else
    match ctx.refresh_token with
    | none => ⟨.error .notLoggedIn, ctx, tokenResps⟩
    | some _ =>
      match tokenResps with
      | [] => ⟨.error .noResponse, ctx, []⟩
      | r :: rest =>
        if r.status = 200 ∨ r.status = 201 ∨ r.status = 401 then
          match r.body with
          | none => ⟨.error .parseFailed, ctx, rest⟩
          | some j =>
            if j.error_present then ⟨.error .exchangeFailed, ctx, rest⟩
            else
              match j.access_token with
              | some tok =>
                ⟨.ok (some tok),
                 { access_token := some tok,
                   refresh_token := some j.refresh_token,
                   expiry_time := snExpiry nowMs j.expires_in }, rest⟩
              | none => ⟨.ok none, ctx, rest⟩
        else ⟨.error .transportFailed, ctx, rest⟩

/-- The argument list of `ServiceNowClient.http_request` (line 55).  The
payload arguments are opaque to the retry logic, so each is modelled as an
optional opaque value; the recorded Python defaults are the field defaults. -/
structure SNArgs where
  method : String
  url_suffix : String
  full_url : Option String := none
  headers : Option String := none
  json_data : Option String := none
  params : Option String := none
  data : Option String := none
  files : Option String := none
  return_empty_response : Bool := false
  auth : Option String := none
  timeout : Option Nat := none
deriving DecidableEq

/-- The retried call of `http_request` line 83:
`self.http_request(method, url_suffix, full_url=full_url, params=params)` —
every other argument reverts to its Python default. -/
def retryArgs (a : SNArgs) : SNArgs :=
  { method := a.method, url_suffix := a.url_suffix, full_url := a.full_url,
    params := a.params }

/-- One response of the business endpoint: status plus a body that parsed
(`some`, content opaque) or did not (`none`). -/
structure SNResp where
  status : Nat := 200
  body : Option String := none
deriving DecidableEq

/-- Outcome of one logical `http_request` call: the value returned to the
caller (or the error raised), the arguments of every physical request
attempt issued, in order, and the final integration context. -/
structure SNRun where
  result : Except SNErr String
  attempts : List SNArgs
  ctx : SNContext

/-- The `use_oauth` preamble of `http_request` (lines 60-64): obtain a valid
access token and install the `Bearer` header.  `'Bearer ' + None` raises a
`TypeError` when `get_access_token` returned `None`.  In basic-auth mode the
preamble does nothing. -/
def auth_step (use_oauth : Bool) (ctx : SNContext) (nowMs : Nat)
    (tokenResps : List SNTokenResp) : SNAuthOut :=
  if use_oauth then
    let o := get_access_token ctx nowMs tokenResps
    match o.result with
    | .ok none => ⟨.error .typeFailed, o.ctx, o.tokenResps⟩
    | _ => o
  else ⟨.ok none, ctx, tokenResps⟩

/-- `ServiceNowClient.http_request` (lines 55-97).  One list element of the
response script is consumed per physical attempt.  Control flow, per source:
* oauth preamble (may refresh; its errors abort before any attempt);
* status 200/201: parse the body and return it (parse failure raises);
* status 401, oauth mode: if the stored `expiry_time <= now`
  (`demisto.getIntegrationContext().get('expiry_time', 0)` line 78) then
  refresh via `get_access_token` and recurse with
  `http_request(method, url_suffix, full_url=full_url, params=params)`;
  otherwise raise the `Unauthorized request` exception with no retry;
* status 401, basic mode: raise immediately;
* any other status is outside `ok_codes = (200, 201, 401)` and raises inside
  `_http_request`.
The wall clock is frozen at `nowMs` for the duration of the logical call
(the source calls `datetime.now()` afresh at each comparison; the embedding
reads one clock value). -/
def http_request (nowMs : Nat) (use_oauth : Bool) :
    SNContext → List SNTokenResp → SNArgs → List SNResp → SNRun
  | ctx, _, _, [] => ⟨.error .noResponse, [], ctx⟩
  | ctx, trs, args, r :: rest =>
    match auth_step use_oauth ctx nowMs trs with
    | ⟨.error e, ctx1, _⟩ => ⟨.error e, [], ctx1⟩
    | ⟨.ok _, ctx1, tr1⟩ =>
      if r.status = 200 ∨ r.status = 201 then
        match r.body with
        | some b => ⟨.ok b, [args], ctx1⟩
        | none => ⟨.error .parseFailed, [args], ctx1⟩
      else if r.status = 401 then
        if use_oauth then
          if ctx1.expiry_time ≤ (nowMs : Int) then
            match get_access_token ctx1 nowMs tr1 with
            | ⟨.error e, ctx2, _⟩ => ⟨.error e, [args], ctx2⟩
            | ⟨.ok none, ctx2, _⟩ => ⟨.error .typeFailed, [args], ctx2⟩
            | ⟨.ok (some _), ctx2, tr2⟩ =>
              let rr := http_request nowMs use_oauth ctx2 tr2 (retryArgs args) rest
              ⟨rr.result, args :: rr.attempts, rr.ctx⟩
          else ⟨.error .unauthorized, [args], ctx1⟩
        else ⟨.error .basicAuthFailed, [args], ctx1⟩
      else ⟨.error .transportFailed, [args], ctx1⟩

end ServiceNow

namespace Webex

/-- One event dict as returned inside a page's `items` list.  `id` stands
for the opaque remaining payload, `created` is the creation timestamp in
milliseconds (ISO strings in the source carry millisecond resolution),
`time` models the `_time` key and `source_log_type` the key of the same
name; both are absent (`none`) until `add_fields_to_events` sets them. -/
structure WxEvent where
  id : Nat
  created : Nat
  time : Option Nat := none
  source_log_type : Option String := none
deriving DecidableEq

/-- One page served by a client page function: the parsed body's `items`
list and the next-link cursor `demisto.get(response.links, 'next.url', '')`
(`""` = no `next` link, i.e. exhaustion). -/
structure WxPage where
  items : List WxEvent
  next : String := ""
deriving DecidableEq

/-- `add_fields_to_events` (lines 52-61): sets `_time` to the event's own
`created` value and `source_log_type` to the event-type label on every
event of the list. -/
def add_fields_to_events (events : List WxEvent) (event_type : Option String) :
    List WxEvent :=
  events.map fun e => { e with time := some e.created, source_log_type := event_type }

/-- `increase_datetime_for_next_fetch` (lines 64-73): the `created`
timestamp of the last event of the list plus one millisecond.  The Python
indexes `events[-1]` and is only ever called on a non-empty list; the `0`
default of `getD` is unreachable at the call sites. -/
def increase_datetime_for_next_fetch (events : List WxEvent) : Nat :=
  (events.getLast?.map fun e => e.created + 1).getD 0

/-- The `while` loop of `get_events_with_pagination` (lines 356-359), after
the unconditional first page has been consumed.  `pages` is the script of
pages the provider would serve to the successive follow-up calls; an
exhausted script while the loop still wants a page yields `none` (the
environment never answers — the Python loop has no other exit).  The loop
runs while the walrus-assigned cursor is non-empty AND the accumulated item
count is strictly below `limit`; on exit it returns the accumulated items
and the last-assigned cursor. -/
def pagination_loop (limit : Nat) :
    List WxPage → List WxEvent → String → Option (List WxEvent × String)
  | pages, events, next_url =>
    if next_url ≠ "" ∧ events.length < limit then
      match pages with
      | [] => none
      | p :: rest => pagination_loop limit rest (events ++ p.items) p.next
    else some (events, next_url)

/-- `get_events_with_pagination` (lines 338-363).  The `client_function`,
the `from_date` argument and the initial `next_url` argument only
parametrise which pages the provider serves; they are absorbed into the
page script `pages`, whose head is the page answering the unconditional
first call (an empty script: the first call never answers).  The
accumulated events are tagged by `add_fields_to_events` before being
returned together with the final cursor. -/
def get_events_with_pagination (event_type : Option String) (limit : Nat)
    (pages : List WxPage) : Option (List WxEvent × String) :=
  match pages with
  | [] => none
  | p :: rest =>
    match pagination_loop limit rest p.items p.next with
    | some (events, next_url) => some (add_fields_to_events events event_type, next_url)
    | none => none

/-- The next-link of the last page of a list, or `dflt` for the empty
list.  `lastNext next_url (consumed pages)` is the cursor the pagination
loop holds after consuming those pages. -/
def lastNext (dflt : String) : List WxPage → String
  | [] => dflt
  | p :: ps => lastNext p.next ps

/-- Concatenation, in order, of the `items` lists of a list of pages. -/
def itemsJoin (pages : List WxPage) : List WxEvent :=
  (pages.map WxPage.items).flatten

/-- One per-event-type checkpoint of the fetch `last_run` dict:
`{since_datetime, next_url}` (lines 46-48), `since_datetime` in
milliseconds. -/
structure WxCheckpoint where
  since_datetime : Nat
  next_url : String
deriving DecidableEq

/-- The body of the per-event-type loop of `fetch_events` (lines 415-422):
run `get_events_with_pagination`, store the returned cursor in the
checkpoint unconditionally, and advance `since_datetime` via
`increase_datetime_for_next_fetch` only when at least one event was
returned.  A `none` pagination result is the aborted cycle (the exception
propagates out of `fetch_events`). -/
def fetch_events_for_type (cp : WxCheckpoint) (event_type : Option String)
    (limit : Nat) (pages : List WxPage) : Option (List WxEvent × WxCheckpoint) :=
  match get_events_with_pagination event_type limit pages with
  | none => none
  | some (events, next_url) =>
    if events.isEmpty then
      some (events, { since_datetime := cp.since_datetime, next_url := next_url })
    else
      some (events,
        { since_datetime := increase_datetime_for_next_fetch events,
          next_url := next_url })

/-- The `last_run` dict: one checkpoint per event type (lines 45-49). -/
structure WxLastRun where
  admin_audits : WxCheckpoint
  security_audits : WxCheckpoint
  compliance_officer_events : WxCheckpoint
deriving DecidableEq

/-- `create_last_run` (lines 38-49): every event type starts one week
(604800000 ms) before now with an empty cursor. -/
def create_last_run (nowMs : Nat) : WxLastRun :=
  let cp : WxCheckpoint := { since_datetime := nowMs - 604800000, next_url := "" }
  ⟨cp, cp, cp⟩

/-- `fetch_events` (lines 387-426): seed `last_run` on first run, then run
the three event types sequentially, each updating its own checkpoint; the
events of all types are concatenated.  (The source appends to `all_events`
only when `events` is non-empty, which equals plain concatenation.)  If any
type's pagination aborts, the whole cycle aborts (`none`). -/
def fetch_events (last_run : Option WxLastRun) (nowMs : Nat) (max_fetch : Nat)
    (admin_pages security_pages co_pages : List WxPage) :
    Option (List WxEvent × WxLastRun) :=
  let lr := last_run.getD (create_last_run nowMs)
  match fetch_events_for_type lr.admin_audits (some "Admin Audit Events")
      max_fetch admin_pages with
  | none => none
  | some (e1, cp1) =>
    match fetch_events_for_type lr.security_audits (some "Security Audit Events")
        max_fetch security_pages with
    | none => none
    | some (e2, cp2) =>
      match fetch_events_for_type lr.compliance_officer_events (some "Events")
          max_fetch co_pages with
      | none => none
      | some (e3, cp3) => some (e1 ++ e2 ++ e3, ⟨cp1, cp2, cp3⟩)

/-- The `fetch-events` branch of `main` (lines 513-521) together with its
enclosing `try/except`: `fetch_events`, then `send_events_to_xsiam`
(success modelled by the `siem_ok` flag), then — only if both succeeded —
`demisto.setLastRun(next_run)`.  Any failure lands in the `except` clause,
which calls `return_error` without touching the persisted last run.  The
value returned is the persisted last-run store after the invocation. -/
def main_fetch_command (persisted : Option WxLastRun) (nowMs : Nat) (max_fetch : Nat)
    (admin_pages security_pages co_pages : List WxPage) (siem_ok : Bool) :
    Option WxLastRun :=
  match fetch_events persisted nowMs max_fetch admin_pages security_pages co_pages with
  | none => persisted
  | some (_, next_run) => if siem_ok then some next_run else persisted

/-- The parsed json body of a Webex `access_token` exchange
(`create_access_token`, lines 91-110; the transport raises for itself on
non-2xx statuses, so a value of this type is a delivered 2xx body).
`error_present` models an `error` key in the body — note the source never
reads it.  `expires_in` and `refresh_token_expires_in` model
`result.get(..., 0)` in seconds. -/
structure WxTokenResult where
  access_token : Option String := none
  refresh_token : Option String := none
  expires_in : Nat := 0
  refresh_token_expires_in : Nat := 0
  error_present : Bool := false
deriving DecidableEq

/-- Truncation of a microsecond timestamp to whole milliseconds —
`isoformat(timespec="milliseconds")` in `date_time_to_iso_format`. -/
def truncMs (us : Nat) : Nat := us / 1000 * 1000

/-- The per-user token record stored in the integration context by
`save_tokens_to_integration_context`.  `assign_params` drops `None` values,
hence the `Option` on the token fields; the two expiry fields are always
present (formatted datetime strings), stored here as microsecond
timestamps truncated to milliseconds. -/
structure WxUserCtx where
  access_token : Option String
  access_token_expires_in : Nat
  refresh_token : Option String
  refresh_token_expires_in : Nat
deriving DecidableEq

/-- `Client.save_tokens_to_integration_context` (lines 112-129): builds a
fresh record from the exchange result — `now + expires_in` and
`now + refresh_token_expires_in` as the two expiry stamps, no safety
margin — and assigns it wholesale to `integration_context[self.user]`,
replacing whatever record was stored for that user. -/
def save_tokens_to_integration_context (nowUs : Nat) (result : WxTokenResult) :
    WxUserCtx :=
  { access_token := result.access_token,
    access_token_expires_in := truncMs (nowUs + result.expires_in * 1000000),
    refresh_token := result.refresh_token,
    refresh_token_expires_in :=
      truncMs (nowUs + result.refresh_token_expires_in * 1000000) }

/-- Error outcomes of `Client.get_access_token` (Webex). -/
inductive WxErr where
  /-- line 140: the stored refresh token has expired; the user must re-run
  the oauth-start command. -/
  | refreshTokenExpired
deriving DecidableEq

/-- `Client.get_access_token` (lines 131-151) acting on this client user's
stored record (`get_integration_context().get(self.user)`).
`refresh_response` is the parsed body the token endpoint would serve if the
refresh exchange is reached.  Behaviour, in source order: no stored record
returns `None` with nothing raised and nothing persisted; an expired
refresh token raises; an expired access token runs the refresh exchange and
persists its result unconditionally — the body's `error` field is never
inspected; an unexpired access token is returned from the store.  The
returned pair is (returned value, stored record after the call). -/
def get_access_token (ic : Option WxUserCtx) (nowUs : Nat)
    (refresh_response : WxTokenResult) :
    Except WxErr (Option String × Option WxUserCtx) :=
  match ic with
  | none => .ok (none, none)
  | some u =>
    if u.refresh_token_expires_in < nowUs then .error .refreshTokenExpired
    else if u.access_token_expires_in < nowUs then
      .ok (refresh_response.access_token,
           some (save_tokens_to_integration_context nowUs refresh_response))
    else .ok (u.access_token, some u)

end Webex

/-! ## Theorems -/

namespace ServiceNow

/-- Every `http_request` run either issues no physical attempt at all (the
oauth preamble failed, or no response was available) or its first recorded
attempt is the original argument list. -/
theorem http_request_attempts_shape (nowMs : Nat) (uo : Bool) (ctx : SNContext)
    (trs : List SNTokenResp) (args : SNArgs) (resps : List SNResp) :
    (http_request nowMs uo ctx trs args resps).attempts = [] ∨
      ∃ t, (http_request nowMs uo ctx trs args resps).attempts = args :: t := by
  cases resps with
  | nil => exact Or.inl rfl
  | cons r rest =>
    unfold http_request
    repeat' split
    all_goals first
      | exact Or.inl rfl
      | exact Or.inr ⟨_, rfl⟩

/-- One-step unfolding of `http_request` on a non-empty response script,
stated so that the recursive occurrence stays folded. -/
theorem http_request_cons_eq (nowMs : Nat) (uo : Bool) (ctx : SNContext)
    (trs : List SNTokenResp) (args : SNArgs) (r : SNResp) (rest : List SNResp) :
    http_request nowMs uo ctx trs args (r :: rest) =
      (match auth_step uo ctx nowMs trs with
       | ⟨.error e, ctx1, _⟩ => ⟨.error e, [], ctx1⟩
       | ⟨.ok _, ctx1, tr1⟩ =>
         if r.status = 200 ∨ r.status = 201 then
           match r.body with
           | some b => ⟨.ok b, [args], ctx1⟩
           | none => ⟨.error .parseFailed, [args], ctx1⟩
         else if r.status = 401 then
           if uo then
             if ctx1.expiry_time ≤ (nowMs : Int) then
               match get_access_token ctx1 nowMs tr1 with
               | ⟨.error e, ctx2, _⟩ => ⟨.error e, [args], ctx2⟩
               | ⟨.ok none, ctx2, _⟩ => ⟨.error .typeFailed, [args], ctx2⟩
               | ⟨.ok (some _), ctx2, tr2⟩ =>
                 let rr := http_request nowMs uo ctx2 tr2 (retryArgs args) rest
                 ⟨rr.result, args :: rr.attempts, rr.ctx⟩
             else ⟨.error .unauthorized, [args], ctx1⟩
           else ⟨.error .basicAuthFailed, [args], ctx1⟩
         else ⟨.error .transportFailed, [args], ctx1⟩ : SNRun) := by
  rfl

/-- A run on a non-empty response script records no attempt, exactly the
original attempt, or the original attempt followed by the attempts of a
recursive run whose arguments are `retryArgs args`. -/
theorem http_request_attempts_cases (nowMs : Nat) (uo : Bool) (ctx : SNContext)
    (trs : List SNTokenResp) (args : SNArgs) (r : SNResp) (rest : List SNResp) :
    (http_request nowMs uo ctx trs args (r :: rest)).attempts = [] ∨
    (http_request nowMs uo ctx trs args (r :: rest)).attempts = [args] ∨
    ∃ ctx2 tr2, (http_request nowMs uo ctx trs args (r :: rest)).attempts =
      args :: (http_request nowMs uo ctx2 tr2 (retryArgs args) rest).attempts := by
  rw [http_request_cons_eq]
  repeat' split
  all_goals first
    | exact Or.inl rfl
    | exact Or.inr (Or.inl rfl)
    | exact Or.inr (Or.inr ⟨_, _, rfl⟩)

/-- C10 (confirmed): in the ServiceNow client, whenever a logical
`http_request` call issues a retried physical request (a second recorded
attempt), that retried request carries only the method, URL suffix, full
URL and query params of the original call; the original call's `headers`,
`json_data`, `data`, `files`, `auth`, `timeout` and `return_empty_response`
arguments revert to their defaults and are not passed on. -/
theorem sn_retry_request_args (nowMs : Nat) (uo : Bool) (ctx : SNContext)
    (trs : List SNTokenResp) (args : SNArgs) (resps : List SNResp) (b : SNArgs)
    (h : (http_request nowMs uo ctx trs args resps).attempts[1]? = some b) :
    b.method = args.method ∧ b.url_suffix = args.url_suffix ∧
    b.full_url = args.full_url ∧ b.params = args.params ∧
    b.headers = none ∧ b.json_data = none ∧ b.data = none ∧ b.files = none ∧
    b.auth = none ∧ b.timeout = none ∧ b.return_empty_response = false := by
  have hb : b = retryArgs args := by
    cases resps with
    | nil => simp [http_request] at h
    | cons r rest =>
      rcases http_request_attempts_cases nowMs uo ctx trs args r rest with
        hc | hc | ⟨ctx2, tr2, hc⟩
      · rw [hc] at h; simp at h
      · rw [hc] at h; simp at h
      · rw [hc] at h
        simp only [List.getElem?_cons_succ] at h
        rcases http_request_attempts_shape nowMs uo ctx2 tr2 (retryArgs args) rest with
          hs | ⟨t, hs⟩
        · rw [hs] at h; simp at h
        · rw [hs] at h
          simp only [List.getElem?_cons_zero, Option.some.injEq] at h
          exact h.symm
  subst hb
  exact ⟨rfl, rfl, rfl, rfl, rfl, rfl, rfl, rfl, rfl, rfl, rfl⟩

/-- C10 witness: a concrete run (expired stored token, a 401 answered by a
refresh, then a 200) whose second attempt exists; its fields are exactly
the original method/suffix/full-url/params with everything else reset. -/
theorem sn_retry_request_args_witness :
    let args : SNArgs := ⟨"GET", "sfx", some "full", some "H", some "J",
      some "P", some "D", some "F", true, some "A", some 60⟩
    let b : SNArgs := ⟨"GET", "sfx", some "full", none, none,
      some "P", none, none, false, none, none⟩
    b.method = args.method ∧ b.url_suffix = args.url_suffix ∧
    b.full_url = args.full_url ∧ b.params = args.params ∧
    b.headers = none ∧ b.json_data = none ∧ b.data = none ∧ b.files = none ∧
    b.auth = none ∧ b.timeout = none ∧ b.return_empty_response = false :=
  sn_retry_request_args 10000 true ⟨some "a0", some (some "r"), 0⟩
    [⟨200, some ⟨false, some "a", none, 0⟩⟩, ⟨200, some ⟨false, some "a", none, 0⟩⟩,
     ⟨200, some ⟨false, some "a", none, 0⟩⟩]
    ⟨"GET", "sfx", some "full", some "H", some "J", some "P", some "D",
      some "F", true, some "A", some 60⟩
    [⟨401, none⟩, ⟨200, some "body"⟩]
    ⟨"GET", "sfx", some "full", none, none, some "P", none, none, false, none, none⟩
    rfl

/-- C1 (counterexample): two concrete OAuth-mode runs refute the claim that
every 401 is answered by a forced refresh and exactly one retry.
First run: a 401 arrives while the stored token's `expiry_time` (5000) is
still in the future of `now` (1000); the code raises `Unauthorized request`
having issued exactly one attempt — no refresh, no retry.
Second run: with a stored expired token and a token endpoint that mints
tokens with `expires_in = 0`, three consecutive 401s produce three physical
attempts on the same logical call — two retries, i.e. more than one. -/
theorem sn_http_request_not_retry_once :
    ((http_request 1000 true ⟨some "t", some (some "r"), 5000⟩ []
        ⟨"GET", "sfx", none, none, none, none, none, none, false, none, none⟩
        [⟨401, none⟩]).result = .error .unauthorized ∧
     (http_request 1000 true ⟨some "t", some (some "r"), 5000⟩ []
        ⟨"GET", "sfx", none, none, none, none, none, none, false, none, none⟩
        [⟨401, none⟩]).attempts.length = 1) ∧
    (http_request 10000 true ⟨some "a0", some (some "r"), 0⟩
        [⟨200, some ⟨false, some "a", none, 0⟩⟩, ⟨200, some ⟨false, some "a", none, 0⟩⟩,
         ⟨200, some ⟨false, some "a", none, 0⟩⟩, ⟨200, some ⟨false, some "a", none, 0⟩⟩,
         ⟨200, some ⟨false, some "a", none, 0⟩⟩, ⟨200, some ⟨false, some "a", none, 0⟩⟩]
        ⟨"GET", "sfx", none, none, none, none, none, none, false, none, none⟩
        [⟨401, none⟩, ⟨401, none⟩, ⟨401, none⟩]).attempts.length = 3 :=
  ⟨⟨rfl, rfl⟩, rfl⟩

/-- C1 (amended): on a 401 in OAuth mode the ServiceNow client retries only
when the stored `expiry_time` is not in the future of the current clock: in
that case it refreshes the token and re-enters `http_request` recursively
(so further retries are possible while refreshed tokens keep arriving
already expired); when the stored token is still unexpired by the clock it
surfaces the `Unauthorized request` error to the caller after that single
attempt, with no refresh and no retry. -/
theorem sn_http_request_401_behavior (nowMs : Nat) (ctx : SNContext)
    (trs : List SNTokenResp) (args : SNArgs) (r : SNResp) (rest : List SNResp)
    (tok1 : Option String) (ctx1 : SNContext) (tr1 : List SNTokenResp)
    (hA : auth_step true ctx nowMs trs = ⟨.ok tok1, ctx1, tr1⟩)
    (hr : r.status = 401) :
    ((nowMs : Int) < ctx1.expiry_time →
      http_request nowMs true ctx trs args (r :: rest) =
        ⟨.error .unauthorized, [args], ctx1⟩) ∧
    (ctx1.expiry_time ≤ (nowMs : Int) →
      ∀ (t2 : String) (ctx2 : SNContext) (tr2 : List SNTokenResp),
        get_access_token ctx1 nowMs tr1 = ⟨.ok (some t2), ctx2, tr2⟩ →
        http_request nowMs true ctx trs args (r :: rest) =
          ⟨(http_request nowMs true ctx2 tr2 (retryArgs args) rest).result,
           args :: (http_request nowMs true ctx2 tr2 (retryArgs args) rest).attempts,
           (http_request nowMs true ctx2 tr2 (retryArgs args) rest).ctx⟩) := by
  constructor
  · intro hlt
    rw [http_request_cons_eq, hA]
    simp only [hr]
    norm_num
    intro hle2
    exact absurd hle2 (Int.not_le.mpr hlt)
  · intro hle t2 ctx2 tr2 hG
    rw [http_request_cons_eq, hA]
    simp only [hr]
    norm_num
    rw [if_pos hle, hG]

/-- C1 amended-theorem witness: the no-retry branch at the first run of the
counterexample (stored expiry 5000, clock 1000, one 401). -/
theorem sn_http_request_401_behavior_witness :
    http_request 1000 true ⟨some "t", some (some "r"), 5000⟩ []
        ⟨"GET", "sfx", none, none, none, none, none, none, false, none, none⟩
        [⟨401, none⟩] =
      ⟨.error .unauthorized,
       [⟨"GET", "sfx", none, none, none, none, none, none, false, none, none⟩],
       ⟨some "t", some (some "r"), 5000⟩⟩ :=
  (sn_http_request_401_behavior 1000 ⟨some "t", some (some "r"), 5000⟩ []
      ⟨"GET", "sfx", none, none, none, none, none, none, false, none, none⟩
      ⟨401, none⟩ [] (some "t") ⟨some "t", some (some "r"), 5000⟩ []
      rfl rfl).1 (by norm_num)

end ServiceNow

/-- C4 (counterexample): the ServiceNow refresh does not carry the stored
refresh token forward.  A stored record holding `refresh_token = "old_rt"`
is refreshed by a response that omits `refresh_token`; the persisted record
ends up with the `refresh_token` key set to `None` (`some none`), not with
`"old_rt"`. -/
theorem sn_refresh_drops_stored_refresh_token :
    ServiceNow.get_access_token ⟨some "old_at", some (some "old_rt"), 0⟩ 1000
        [⟨200, some ⟨false, some "new_at", none, 0⟩⟩] =
      ⟨.ok (some "new_at"), ⟨some "new_at", some none, 990⟩, []⟩ ∧
    (⟨some "new_at", some none, 990⟩ : ServiceNow.SNContext).refresh_token ≠
      some (some "old_rt") :=
  ⟨rfl, by decide⟩

/-- C4 (amended): whenever `get_access_token` refreshes an expired access
token, the new Token is persisted as a whole-record overwrite whose
`refresh_token` is the one carried by the refresh response itself — absent
(`None` in ServiceNow, a dropped key in Webex) when the response omits
one, the previously stored refresh token being discarded rather than
carried forward — and the new `access_token` is returned. -/
theorem refresh_persists_response_token_only :
    (∀ (ctx : ServiceNow.SNContext) (nowMs : Nat) (j : ServiceNow.SNTokenJson)
       (rest : List ServiceNow.SNTokenResp) (rt : Option String) (tok : String),
      ctx.expiry_time ≤ (nowMs : Int) →
      ctx.refresh_token = some rt →
      j.error_present = false →
      j.access_token = some tok →
      ServiceNow.get_access_token ctx nowMs (⟨200, some j⟩ :: rest) =
        ⟨.ok (some tok),
         ⟨some tok, some j.refresh_token, ServiceNow.snExpiry nowMs j.expires_in⟩,
         rest⟩) ∧
    (∀ (u : Webex.WxUserCtx) (nowUs : Nat) (resp : Webex.WxTokenResult),
      nowUs ≤ u.refresh_token_expires_in →
      u.access_token_expires_in < nowUs →
      Webex.get_access_token (some u) nowUs resp =
        .ok (resp.access_token,
             some (Webex.save_tokens_to_integration_context nowUs resp))) := by
  constructor
  · intro ctx nowMs j rest rt tok h1 h2 h3 h4
    have hc : ¬(ctx.access_token.isSome ∧ (nowMs : Int) < ctx.expiry_time) := by
      rintro ⟨-, hlt⟩; omega
    simp only [ServiceNow.get_access_token, hc, if_false, h2, h3, h4]
    norm_num
  · intro u nowUs resp h1 h2
    simp only [Webex.get_access_token]
    rw [if_neg (Nat.not_lt.mpr h1), if_pos h2]

/-- C4 amended-theorem witness: the ServiceNow half at the counterexample
input (expired stored token with `"old_rt"`, refresh response with a new
access token and no refresh token). -/
theorem refresh_persists_response_token_only_witness :
    ServiceNow.get_access_token ⟨some "old_at", some (some "old_rt"), 0⟩ 1000
        [⟨200, some ⟨false, some "new_at", none, 0⟩⟩] =
      ⟨.ok (some "new_at"),
       ⟨some "new_at", some (none : Option String), ServiceNow.snExpiry 1000 0⟩, []⟩ :=
  refresh_persists_response_token_only.1
    ⟨some "old_at", some (some "old_rt"), 0⟩ 1000
    ⟨false, some "new_at", none, 0⟩ [] (some "old_rt") "new_at"
    (by decide) rfl rfl rfl

/-- C5 (counterexample): the Webex client does not check the `error` field
of a token exchange at all.  With a stored record (valid refresh token,
expired access token) and a refresh response that carries an `error` field
and no tokens, `get_access_token` raises nothing and persists a fresh
record — wiping out the previously stored access and refresh tokens. -/
theorem wx_error_response_still_persists_token :
    Webex.get_access_token
        (some ⟨some "at0", 0, some "rt0", 1000000000000⟩) 5000
        { error_present := true } =
      .ok (none, some ⟨none, 5000, none, 5000⟩) ∧
    (some (⟨none, 5000, none, 5000⟩ : Webex.WxUserCtx) ≠
      some (⟨some "at0", 0, some "rt0", 1000000000000⟩ : Webex.WxUserCtx)) :=
  ⟨rfl, by decide⟩

/-- C5 (amended): in the ServiceNow client a token-exchange response that
contains an `error` field makes the flow fail with the exchange error
(`return_error` carrying the provider payload) while the integration
context is left exactly as it was — no Token is persisted.  The Webex
client has no such check (see the counterexample). -/
theorem sn_error_response_persists_nothing
    (ctx : ServiceNow.SNContext) (nowMs : Nat) (j : ServiceNow.SNTokenJson)
    (rest : List ServiceNow.SNTokenResp) (rt : Option String)
    (h1 : ctx.expiry_time ≤ (nowMs : Int))
    (h2 : ctx.refresh_token = some rt)
    (h3 : j.error_present = true) :
    ServiceNow.get_access_token ctx nowMs (⟨200, some j⟩ :: rest) =
      ⟨.error .exchangeFailed, ctx, rest⟩ := by
  have hc : ¬(ctx.access_token.isSome ∧ (nowMs : Int) < ctx.expiry_time) := by
    rintro ⟨-, hlt⟩; omega
  simp only [ServiceNow.get_access_token, hc, if_false, h2, h3]
  norm_num

/-- C5 amended-theorem witness: a concrete expired context and an
error-carrying exchange response; the error is raised and the context is
returned untouched. -/
theorem sn_error_response_persists_nothing_witness :
    ServiceNow.get_access_token ⟨some "at0", some (some "rt0"), 0⟩ 1000
        [⟨200, some ⟨true, none, none, 0⟩⟩] =
      ⟨.error .exchangeFailed, ⟨some "at0", some (some "rt0"), 0⟩, []⟩ :=
  sn_error_response_persists_nothing ⟨some "at0", some (some "rt0"), 0⟩ 1000
    ⟨true, none, none, 0⟩ [] (some "rt0") (by decide) rfl rfl

/-- C6 (counterexample): the Webex client does not fail when no token
record is stored.  `get_access_token` with an empty per-user integration
context returns `None` without raising and without directing the caller to
the login command; the client proceeds (`AdminClient.__init__` happily
builds the header `Bearer None`). -/
theorem wx_missing_token_returns_none :
    Webex.get_access_token none 1000 {} = .ok (none, none) ∧
    (Webex.get_access_token none 1000 ({} : Webex.WxTokenResult)).isOk = true :=
  ⟨rfl, rfl⟩

/-- C6 (amended): in the ServiceNow client, obtaining an access token with
no stored refresh token (and no valid cached access token) fails with the
not-logged-in error telling the caller to run the login command first; in
the Webex client, obtaining an access token with no stored record returns
`None` without error, proceeding without a valid token. -/
theorem missing_token_requires_login :
    (∀ (ctx : ServiceNow.SNContext) (nowMs : Nat) (trs : List ServiceNow.SNTokenResp),
      ¬(ctx.access_token.isSome ∧ (nowMs : Int) < ctx.expiry_time) →
      ctx.refresh_token = none →
      ServiceNow.get_access_token ctx nowMs trs = ⟨.error .notLoggedIn, ctx, trs⟩) ∧
    (∀ (nowUs : Nat) (resp : Webex.WxTokenResult),
      Webex.get_access_token none nowUs resp = .ok (none, none)) := by
  constructor
  · intro ctx nowMs trs hc h2
    simp only [ServiceNow.get_access_token, hc, if_false, h2]
  · intro nowUs resp
    rfl

/-- C6 amended-theorem witness: the ServiceNow half at the empty stored
context (fresh install, nobody logged in). -/
theorem missing_token_requires_login_witness :
    ServiceNow.get_access_token ⟨none, none, 0⟩ 1000 [] =
      ⟨.error .notLoggedIn, ⟨none, none, 0⟩, []⟩ :=
  missing_token_requires_login.1 ⟨none, none, 0⟩ 1000 [] (by decide) rfl

/-- C8 (counterexample): the Webex client persists the access-token expiry
with no safety margin.  At authentication time 0 (a whole-millisecond
clock) and `expires_in = 60` seconds, the persisted expiry equals
`0 + 60 s` exactly — it is not strictly earlier than the authentication
time plus the provider-reported duration, as the claim requires of every
successful exchange. -/
theorem wx_expiry_without_margin :
    (Webex.save_tokens_to_integration_context 0
        { access_token := some "a", expires_in := 60 }).access_token_expires_in =
      60000000 ∧
    ¬((Webex.save_tokens_to_integration_context 0
        { access_token := some "a", expires_in := 60 }).access_token_expires_in <
      0 + 60 * 1000000) := by
  exact ⟨rfl, by decide⟩

/-- C8 (amended): the ServiceNow client persists
`expiry_time = trunc-to-seconds(now) + expires_in − 10 ms`, which is
strictly earlier than the authentication time plus the provider-reported
`expires_in`; the Webex client persists
`now + expires_in` truncated to milliseconds — at most equal to the true
expiry, with no safety margin (equality whenever the clock reading is a
whole millisecond). -/
theorem token_expiry_margin :
    (∀ (nowMs expires_in : Nat),
      ServiceNow.snExpiry nowMs expires_in < (nowMs : Int) + expires_in * 1000) ∧
    (∀ (nowUs : Nat) (r : Webex.WxTokenResult),
      (Webex.save_tokens_to_integration_context nowUs r).access_token_expires_in ≤
        nowUs + r.expires_in * 1000000) := by
  constructor
  · intro n e
    unfold ServiceNow.snExpiry
    have h := Nat.div_mul_le_self n 1000
    push_cast
    omega
  · intro n r
    unfold Webex.save_tokens_to_integration_context Webex.truncMs
    exact Nat.div_mul_le_self _ 1000

namespace Webex

/-- One-step unfolding of `pagination_loop` on the empty page script. -/
theorem pagination_loop_nil (limit : Nat) (events : List WxEvent) (next_url : String) :
    pagination_loop limit [] events next_url =
      if next_url ≠ "" ∧ events.length < limit then none
      else some (events, next_url) := by
  rw [pagination_loop]

/-- One-step unfolding of `pagination_loop` on a non-empty page script. -/
theorem pagination_loop_cons (limit : Nat) (p : WxPage) (rest : List WxPage)
    (events : List WxEvent) (next_url : String) :
    pagination_loop limit (p :: rest) events next_url =
      if next_url ≠ "" ∧ events.length < limit then
        pagination_loop limit rest (events ++ p.items) p.next
      else some (events, next_url) := by
  rw [pagination_loop]

/-- `itemsJoin` of the empty page list. -/
theorem itemsJoin_nil : itemsJoin [] = [] := rfl

/-- `itemsJoin` distributes over cons. -/
theorem itemsJoin_cons (p : WxPage) (l : List WxPage) :
    itemsJoin (p :: l) = p.items ++ itemsJoin l := rfl

/-- Full characterisation of a terminating `pagination_loop` run: some
prefix of `k` pages of the script is consumed; the accumulated events are
the starting accumulator followed by the items of that prefix in order;
the returned cursor is the next-link of the last consumed page (or the
starting cursor when nothing was consumed); the loop stopped because the
cursor was empty or the limit was reached; and before each consumed page
the loop condition held (a non-empty cursor and an accumulated count
strictly below the limit). -/
theorem pagination_loop_spec (limit : Nat) :
    ∀ (pages : List WxPage) (events : List WxEvent) (next_url : String)
      (evs : List WxEvent) (cur : String),
    pagination_loop limit pages events next_url = some (evs, cur) →
    ∃ k, k ≤ pages.length ∧
      evs = events ++ itemsJoin (pages.take k) ∧
      cur = lastNext next_url (pages.take k) ∧
      (cur = "" ∨ limit ≤ evs.length) ∧
      ∀ j, j < k → lastNext next_url (pages.take j) ≠ "" ∧
        (events ++ itemsJoin (pages.take j)).length < limit := by
  intro pages
  induction pages with
  | nil =>
    intro events next_url evs cur h
    rw [pagination_loop_nil] at h
    split at h
    · exact absurd h (by simp)
    · rw [Option.some_inj, Prod.ext_iff] at h
      obtain ⟨h1, h2⟩ := h
      subst h1; subst h2
      refine ⟨0, Nat.le_refl 0, by simp [itemsJoin_nil], rfl, ?_, ?_⟩
      · rename_i hc
        push_neg at hc
        by_cases hne : next_url = ""
        · exact Or.inl hne
        · exact Or.inr (hc hne)
      · intro j hj
        exact absurd hj (Nat.not_lt_zero j)
  | cons p rest ih =>
    intro events next_url evs cur h
    rw [pagination_loop_cons] at h
    split at h
    · rename_i hc
      obtain ⟨k', hk, hevs, hcur, hstop, hsteps⟩ := ih (events ++ p.items) p.next evs cur h
      refine ⟨k' + 1, Nat.succ_le_succ hk, ?_, ?_, hstop, ?_⟩
      · rw [List.take_succ_cons, itemsJoin_cons, ← List.append_assoc]
        exact hevs
      · rw [List.take_succ_cons]
        exact hcur
      · intro j hj
        cases j with
        | zero =>
          refine ⟨hc.1, ?_⟩
          simpa [itemsJoin_nil] using hc.2
        | succ j' =>
          obtain ⟨ha, hb⟩ := hsteps j' (Nat.lt_of_succ_lt_succ hj)
          refine ⟨?_, ?_⟩
          · rw [List.take_succ_cons]
            exact ha
          · rw [List.take_succ_cons, itemsJoin_cons, ← List.append_assoc]
            exact hb
    · rw [Option.some_inj, Prod.ext_iff] at h
      obtain ⟨h1, h2⟩ := h
      subst h1; subst h2
      refine ⟨0, Nat.zero_le _, by simp [itemsJoin_nil], rfl, ?_, ?_⟩
      · rename_i hc
        push_neg at hc
        by_cases hne : next_url = ""
        · exact Or.inl hne
        · exact Or.inr (hc hne)
      · intro j hj
        exact absurd hj (Nat.not_lt_zero j)

/-- `lastNext` steps through a cons by replacing the default. -/
theorem lastNext_cons (d : String) (p : WxPage) (l : List WxPage) :
    lastNext d (p :: l) = lastNext p.next l := rfl

/-- One-step unfolding of `get_events_with_pagination` on a non-empty page
script. -/
theorem get_events_with_pagination_cons (event_type : Option String) (limit : Nat)
    (p : WxPage) (rest : List WxPage) :
    get_events_with_pagination event_type limit (p :: rest) =
      match pagination_loop limit rest p.items p.next with
      | some (events, next_url) =>
          some (add_fields_to_events events event_type, next_url)
      | none => none := rfl

/-- C2 (confirmed): a terminating `get_events_with_pagination` run consumes
some non-empty prefix of `k` pages; it returns the concatenation, in page
order, of the item lists of those pages (each item enriched with the
`_time`/`source_log_type` tags the function always adds); it requested a
follow-up page exactly while the previous page carried a next-link and the
accumulated item count was strictly below `limit`; and the returned cursor
is non-empty iff the last fetched page still carried a next-link, which
happens exactly when the accumulated item count reached `limit`. -/
theorem wx_pagination_characterization (event_type : Option String) (limit : Nat)
    (pages : List WxPage) (evs : List WxEvent) (cur : String)
    (h : get_events_with_pagination event_type limit pages = some (evs, cur)) :
    ∃ k, 1 ≤ k ∧ k ≤ pages.length ∧
      evs = add_fields_to_events (itemsJoin (pages.take k)) event_type ∧
      cur = lastNext "" (pages.take k) ∧
      (∀ j, 1 ≤ j → j < k →
        lastNext "" (pages.take j) ≠ "" ∧ (itemsJoin (pages.take j)).length < limit) ∧
      (cur ≠ "" ↔ lastNext "" (pages.take k) ≠ "" ∧
        limit ≤ (itemsJoin (pages.take k)).length) := by
  cases pages with
  | nil => exact absurd h (by simp [get_events_with_pagination])
  | cons p rest =>
    rw [get_events_with_pagination_cons] at h
    rcases hloop : pagination_loop limit rest p.items p.next with _ | ⟨events0, next_url0⟩
    · rw [hloop] at h
      exact absurd h (by simp)
    · rw [hloop] at h
      rw [Option.some_inj, Prod.mk.injEq] at h
      obtain ⟨h1, h2⟩ := h
      obtain ⟨k', hk, hevs, hcur, hstop, hsteps⟩ :=
        pagination_loop_spec limit rest p.items p.next events0 next_url0 hloop
      refine ⟨k' + 1, Nat.succ_le_succ (Nat.zero_le _), Nat.succ_le_succ hk,
        ?_, ?_, ?_, ?_⟩
      · rw [List.take_succ_cons, itemsJoin_cons, ← hevs, ← h1]
      · rw [List.take_succ_cons, lastNext_cons, ← hcur, ← h2]
      · intro j h1j hjk
        cases j with
        | zero => exact absurd h1j (by norm_num)
        | succ j' =>
          obtain ⟨ha, hb⟩ := hsteps j' (Nat.lt_of_succ_lt_succ hjk)
          refine ⟨?_, ?_⟩
          · rw [List.take_succ_cons, lastNext_cons]
            exact ha
          · rw [List.take_succ_cons, itemsJoin_cons]
            exact hb
      · constructor
        · intro hne
          refine ⟨?_, ?_⟩
          · rw [List.take_succ_cons, lastNext_cons, ← hcur, h2]
            exact hne
          · rcases hstop with hS | hS
            · exact absurd (by rw [← h2]; exact hS) hne
            · rw [List.take_succ_cons, itemsJoin_cons, ← hevs]
              exact hS
        · rintro ⟨hL, -⟩
          rw [List.take_succ_cons, lastNext_cons, ← hcur, h2] at hL
          exact hL

/-- C2 witness: the characterisation at a concrete two-page sequence (one
item per page, a next-link only on the first page, limit 5). -/
theorem wx_pagination_characterization_witness :
    ∃ k, 1 ≤ k ∧
      k ≤ ([⟨[⟨1, 100, none, none⟩], "u"⟩,
            ⟨[⟨2, 200, none, none⟩], ""⟩] : List WxPage).length ∧
      ([⟨1, 100, some 100, some "T"⟩, ⟨2, 200, some 200, some "T"⟩] : List WxEvent) =
        add_fields_to_events
          (itemsJoin (([⟨[⟨1, 100, none, none⟩], "u"⟩,
            ⟨[⟨2, 200, none, none⟩], ""⟩] : List WxPage).take k)) (some "T") ∧
      "" = lastNext "" (([⟨[⟨1, 100, none, none⟩], "u"⟩,
            ⟨[⟨2, 200, none, none⟩], ""⟩] : List WxPage).take k) ∧
      (∀ j, 1 ≤ j → j < k →
        lastNext "" (([⟨[⟨1, 100, none, none⟩], "u"⟩,
            ⟨[⟨2, 200, none, none⟩], ""⟩] : List WxPage).take j) ≠ "" ∧
        (itemsJoin (([⟨[⟨1, 100, none, none⟩], "u"⟩,
            ⟨[⟨2, 200, none, none⟩], ""⟩] : List WxPage).take j)).length < 5) ∧
      (("" : String) ≠ "" ↔
        lastNext "" (([⟨[⟨1, 100, none, none⟩], "u"⟩,
            ⟨[⟨2, 200, none, none⟩], ""⟩] : List WxPage).take k) ≠ "" ∧
        5 ≤ (itemsJoin (([⟨[⟨1, 100, none, none⟩], "u"⟩,
            ⟨[⟨2, 200, none, none⟩], ""⟩] : List WxPage).take k)).length) :=
  wx_pagination_characterization (some "T") 5
    [⟨[⟨1, 100, none, none⟩], "u"⟩, ⟨[⟨2, 200, none, none⟩], ""⟩]
    [⟨1, 100, some 100, some "T"⟩, ⟨2, 200, some 200, some "T"⟩] "" rfl

/-- C3 (confirmed): for one event type of a fetch cycle, if the paginated
fetch returned at least one event the checkpoint's `since_datetime` becomes
the `created` timestamp of the last returned event plus one millisecond; if
it returned no events `since_datetime` is left unchanged; and in both cases
the cursor the paginated fetch returned (possibly non-empty) is stored in
the checkpoint's `next_url`. -/
theorem wx_checkpoint_update (cp : WxCheckpoint) (event_type : Option String)
    (limit : Nat) (pages : List WxPage) (evs : List WxEvent) (cp2 : WxCheckpoint)
    (h : fetch_events_for_type cp event_type limit pages = some (evs, cp2)) :
    (∃ cur, get_events_with_pagination event_type limit pages = some (evs, cur) ∧
      cp2.next_url = cur) ∧
    (evs = [] → cp2.since_datetime = cp.since_datetime) ∧
    (∀ e, evs.getLast? = some e → cp2.since_datetime = e.created + 1) := by
  unfold fetch_events_for_type at h
  split at h
  · exact absurd h (by simp)
  · rename_i events0 next_url0 heq
    split at h
    · rename_i hemp
      rw [Option.some_inj, Prod.mk.injEq] at h
      obtain ⟨h1, h2⟩ := h
      subst h1
      subst h2
      refine ⟨⟨next_url0, heq, rfl⟩, fun _ => rfl, ?_⟩
      intro e he
      rw [List.isEmpty_iff] at hemp
      rw [hemp] at he
      exact absurd he (by simp)
    · rename_i hemp
      rw [Option.some_inj, Prod.mk.injEq] at h
      obtain ⟨h1, h2⟩ := h
      subst h1
      subst h2
      refine ⟨⟨next_url0, heq, rfl⟩, ?_, ?_⟩
      · intro hnil
        exact absurd (List.isEmpty_iff.mpr hnil) hemp
      · intro e he
        simp [increase_datetime_for_next_fetch, he]

/-- C3 witness: the spec scenario — checkpoint `(T0 = 50, "")`, one page
with two items created at 100 < 200 and no next-link, limit 200; the new
checkpoint is `(200 + 1, "")` and both events are returned. -/
theorem wx_checkpoint_update_witness :
    (∃ cur, get_events_with_pagination (some "T") 200
        [⟨[⟨1, 100, none, none⟩, ⟨2, 200, none, none⟩], ""⟩] =
        some ([⟨1, 100, some 100, some "T"⟩, ⟨2, 200, some 200, some "T"⟩], cur) ∧
      (⟨201, ""⟩ : WxCheckpoint).next_url = cur) ∧
    (([⟨1, 100, some 100, some "T"⟩, ⟨2, 200, some 200, some "T"⟩] : List WxEvent) = [] →
      (⟨201, ""⟩ : WxCheckpoint).since_datetime = (⟨50, ""⟩ : WxCheckpoint).since_datetime) ∧
    (∀ e, ([⟨1, 100, some 100, some "T"⟩,
        ⟨2, 200, some 200, some "T"⟩] : List WxEvent).getLast? = some e →
      (⟨201, ""⟩ : WxCheckpoint).since_datetime = e.created + 1) :=
  wx_checkpoint_update ⟨50, ""⟩ (some "T") 200
    [⟨[⟨1, 100, none, none⟩, ⟨2, 200, none, none⟩], ""⟩]
    [⟨1, 100, some 100, some "T"⟩, ⟨2, 200, some 200, some "T"⟩] ⟨201, ""⟩ rfl

/-- C9 (confirmed): for one event type, under the assumption that every
returned event's creation timestamp is at least the checkpoint's window
start, the checkpoint's `since_datetime` never decreases across a fetch
cycle; and the stored `next_url` is exactly the next-link of the last
fetched page: the consumed prefix of `k` pages is the one pinned down by
the loop condition (each earlier prefix carried a next-link and was below
the limit, and the run stopped because the cursor was empty or the limit
was reached), the returned events are that prefix's tagged items, and
`cp2.next_url` equals its last page's next-link — in particular it is
reset to `""` whenever the page sequence was exhausted (no next-link on
the last fetched page). -/
theorem wx_since_datetime_monotone (cp : WxCheckpoint) (event_type : Option String)
    (limit : Nat) (pages : List WxPage) (evs : List WxEvent) (cp2 : WxCheckpoint)
    (h : fetch_events_for_type cp event_type limit pages = some (evs, cp2))
    (hts : ∀ e ∈ evs, cp.since_datetime ≤ e.created) :
    cp.since_datetime ≤ cp2.since_datetime ∧
    ∃ k, 1 ≤ k ∧ k ≤ pages.length ∧
      evs = add_fields_to_events (itemsJoin (pages.take k)) event_type ∧
      cp2.next_url = lastNext "" (pages.take k) ∧
      (∀ j, 1 ≤ j → j < k →
        lastNext "" (pages.take j) ≠ "" ∧ (itemsJoin (pages.take j)).length < limit) ∧
      (lastNext "" (pages.take k) = "" → cp2.next_url = "") ∧
      (cp2.next_url = "" ∨ limit ≤ (itemsJoin (pages.take k)).length) := by
  unfold fetch_events_for_type at h
  split at h
  · exact absurd h (by simp)
  · rename_i events0 next_url0 heq
    have hchar : ∃ k, 1 ≤ k ∧ k ≤ pages.length ∧
        events0 = add_fields_to_events (itemsJoin (pages.take k)) event_type ∧
        next_url0 = lastNext "" (pages.take k) ∧
        (∀ j, 1 ≤ j → j < k →
          lastNext "" (pages.take j) ≠ "" ∧ (itemsJoin (pages.take j)).length < limit) ∧
        (next_url0 = "" ∨ limit ≤ (itemsJoin (pages.take k)).length) := by
      cases pages with
      | nil => exact absurd heq (by simp [get_events_with_pagination])
      | cons p rest =>
        rw [get_events_with_pagination_cons] at heq
        rcases hloop : pagination_loop limit rest p.items p.next with _ | ⟨ev1, nu1⟩
        · rw [hloop] at heq
          exact absurd heq (by simp)
        · rw [hloop] at heq
          rw [Option.some_inj, Prod.mk.injEq] at heq
          obtain ⟨h1, h2⟩ := heq
          obtain ⟨k1, hk, hevs1, hcur1, hstop1, hsteps1⟩ :=
            pagination_loop_spec limit rest p.items p.next ev1 nu1 hloop
          refine ⟨k1 + 1, Nat.succ_le_succ (Nat.zero_le _), Nat.succ_le_succ hk,
            ?_, ?_, ?_, ?_⟩
          · rw [List.take_succ_cons, itemsJoin_cons, ← hevs1, ← h1]
          · rw [List.take_succ_cons, lastNext_cons, ← hcur1, ← h2]
          · intro j h1j hjk
            cases j with
            | zero => exact absurd h1j (by norm_num)
            | succ j2 =>
              obtain ⟨ha, hb⟩ := hsteps1 j2 (Nat.lt_of_succ_lt_succ hjk)
              refine ⟨?_, ?_⟩
              · rw [List.take_succ_cons, lastNext_cons]
                exact ha
              · rw [List.take_succ_cons, itemsJoin_cons]
                exact hb
          · rcases hstop1 with hS | hS
            · exact Or.inl (by rw [← h2]; exact hS)
            · refine Or.inr ?_
              rw [List.take_succ_cons, itemsJoin_cons, ← hevs1]
              exact hS
    split at h
    · rename_i hemp
      rw [Option.some_inj, Prod.mk.injEq] at h
      obtain ⟨h1, h2⟩ := h
      subst h1
      subst h2
      obtain ⟨k, hp1, hp2, hevsk, hcurk, hstepsk, hstopk⟩ := hchar
      exact ⟨Nat.le_refl _,
        k, hp1, hp2, hevsk, hcurk, hstepsk, fun hl => hcurk.trans hl, hstopk⟩
    · rename_i hemp
      rw [Option.some_inj, Prod.mk.injEq] at h
      obtain ⟨h1, h2⟩ := h
      subst h1
      subst h2
      obtain ⟨k, hp1, hp2, hevsk, hcurk, hstepsk, hstopk⟩ := hchar
      refine ⟨?_,
        k, hp1, hp2, hevsk, hcurk, hstepsk, fun hl => hcurk.trans hl, hstopk⟩
      have hne : events0 ≠ [] := fun hnil => hemp (List.isEmpty_iff.mpr hnil)
      obtain ⟨e, he⟩ := Option.isSome_iff_exists.mp (List.getLast?_isSome.mpr hne)
      have hmem : e ∈ events0 := by
        obtain ⟨hx, hy⟩ := List.mem_getLast?_eq_getLast (l := events0) (x := e) he
        exact hy ▸ List.getLast_mem hx
      have hle := hts e hmem
      simp [increase_datetime_for_next_fetch, he]
      omega

/-- C9 witness: a checkpoint starting at 50, one page with one event created
at 100 ≥ 50 and no next-link; `since_datetime` advances to 101 ≥ 50, the
consumed prefix is the whole one-page script, and `next_url` is cleared
because that last fetched page carried no next-link. -/
theorem wx_since_datetime_monotone_witness :
    (⟨50, "u"⟩ : WxCheckpoint).since_datetime ≤
      (⟨101, ""⟩ : WxCheckpoint).since_datetime ∧
    ∃ k, 1 ≤ k ∧ k ≤ ([⟨[⟨1, 100, none, none⟩], ""⟩] : List WxPage).length ∧
      ([⟨1, 100, some 100, some "T"⟩] : List WxEvent) =
        add_fields_to_events
          (itemsJoin (([⟨[⟨1, 100, none, none⟩], ""⟩] : List WxPage).take k))
          (some "T") ∧
      (⟨101, ""⟩ : WxCheckpoint).next_url =
        lastNext "" (([⟨[⟨1, 100, none, none⟩], ""⟩] : List WxPage).take k) ∧
      (∀ j, 1 ≤ j → j < k →
        lastNext "" (([⟨[⟨1, 100, none, none⟩], ""⟩] : List WxPage).take j) ≠ "" ∧
        (itemsJoin (([⟨[⟨1, 100, none, none⟩], ""⟩] : List WxPage).take j)).length
          < 10) ∧
      (lastNext "" (([⟨[⟨1, 100, none, none⟩], ""⟩] : List WxPage).take k) = "" →
        (⟨101, ""⟩ : WxCheckpoint).next_url = "") ∧
      ((⟨101, ""⟩ : WxCheckpoint).next_url = "" ∨
        10 ≤ (itemsJoin
          (([⟨[⟨1, 100, none, none⟩], ""⟩] : List WxPage).take k)).length) :=
  wx_since_datetime_monotone ⟨50, "u"⟩ (some "T") 10
    [⟨[⟨1, 100, none, none⟩], ""⟩] [⟨1, 100, some 100, some "T"⟩] ⟨101, ""⟩
    rfl (by decide)

/-- C7 (confirmed): the `fetch-events` command persists a new last run only
when the whole cycle succeeds: if the fetch of any event type aborts, or
delivery to the SIEM sink fails, the previously persisted last run (every
event type's checkpoint) is returned unchanged; only when the fetch
completes and delivery succeeds is the freshly computed last run persisted. -/
theorem wx_failed_cycle_preserves_last_run (persisted : Option WxLastRun)
    (nowMs max_fetch : Nat) (ap sp co : List WxPage) (siem_ok : Bool) :
    (fetch_events persisted nowMs max_fetch ap sp co = none →
      main_fetch_command persisted nowMs max_fetch ap sp co siem_ok = persisted) ∧
    (siem_ok = false →
      main_fetch_command persisted nowMs max_fetch ap sp co siem_ok = persisted) ∧
    (∀ evs next_run,
      fetch_events persisted nowMs max_fetch ap sp co = some (evs, next_run) →
      siem_ok = true →
      main_fetch_command persisted nowMs max_fetch ap sp co siem_ok = some next_run) := by
  refine ⟨?_, ?_, ?_⟩
  · intro h
    unfold main_fetch_command
    rw [h]
  · intro hs
    subst hs
    unfold main_fetch_command
    split
    · rfl
    · rfl
  · intro evs next_run h hs
    subst hs
    unfold main_fetch_command
    rw [h]
    simp

/-- C7 witness: an empty admin page script makes the cycle abort (the first
page request never answers); the persisted last run is returned unchanged
even though the SIEM sink would have accepted the events. -/
theorem wx_failed_cycle_preserves_last_run_witness :
    main_fetch_command (some ⟨⟨50, ""⟩, ⟨60, ""⟩, ⟨70, ""⟩⟩) 1000 10 [] [] [] true =
      some ⟨⟨50, ""⟩, ⟨60, ""⟩, ⟨70, ""⟩⟩ :=
  (wx_failed_cycle_preserves_last_run (some ⟨⟨50, ""⟩, ⟨60, ""⟩, ⟨70, ""⟩⟩)
    1000 10 [] [] [] true).1 rfl

end Webex
